import Mathlib

/-!
Verification of the `User` resource module of a Rust REST-API client SDK
(`src/public/user/mod.rs`).

The development shallowly embeds:
* the `User` struct (twelve `Option` fields) together with its serde
  `Serialize`/`Deserialize` behaviour under
  `#[serde(default, rename_all = "camelCase")]`;
* the two constructors `User::new` and `User::template`;
* the six client operations (`get_users`, `post_bulk_user_emails`,
  `post_user`, `get_user`, `put_user`, `delete_user`) as explicit
  state-passing computations over an environment supplying the token
  collaborator `get_access_token` and the HTTP transport, producing both a
  result and a trace of observable events (token requests, HTTP requests).

Machine integers (`u32`) are modelled as `Nat` with explicit range checks
where the code's deserialization performs them.
-/

set_option autoImplicit false

namespace DomoUser

/-- JSON values.  Numbers are modelled as integers, which covers every value
this module produces or consumes (`u32` fields, booleans, strings). -/
inductive Json where
  | null
  | bool (b : Bool)
  | num (n : Int)
  | str (s : String)
  | arr (xs : List Json)
  | obj (fields : List (String × Json))

/-- The keys of a JSON object (empty for non-objects). -/
def Json.keys : Json → List String
  | Json.obj fs => fs.map Prod.fst
  | _ => []

/-- First value bound to key `k` in a JSON object, if any. -/
def Json.lookupKey : Json → String → Option Json
  | Json.obj fs, k => (fs.find? (fun p => p.fst = k)).map Prod.snd
  | _, _ => none

/-- The `User` struct of `src/public/user/mod.rs`: every field is an
`Option`, `u32` fields are modelled as `Nat`. -/
structure User where
  id : Option Nat
  name : Option String
  email : Option String
  alternate_email : Option String
  employee_number : Option Nat
  title : Option String
  phone : Option String
  location : Option String
  timezone : Option String
  locale : Option String
  role : Option String
  deleted : Option Bool
deriving Repr, DecidableEq

/-- `User::new()`: every field absent. -/
def User.new : User :=
  { id := none
  , name := none
  , email := none
  , alternate_email := none
  , employee_number := none
  , title := none
  , phone := none
  , location := none
  , timezone := none
  , locale := none
  , role := none
  , deleted := none }

/-- `User::template()`: fully populated example value. -/
def User.template : User :=
  { id := some 0
  , name := some "First Last"
  , email := some "First.Last@company.com"
  , alternate_email := some "first.last@gmail.com"
  , employee_number := some 0
  , title := some "Title"
  , phone := some "+1 (800) 700-6000"
  , location := some "CA"
  , timezone := some "America/Los_Angeles"
  , locale := some "en-US"
  , role := some "Admin - Match roles defined in instance"
  , deleted := some false }

/-! ### Serialization (serde `Serialize` derive)

The derive emits every field; an `Option` field that is `None` is emitted as
JSON `null` (the derive carries no `skip_serializing_if` attribute), and
`rename_all = "camelCase"` renames the keys. -/

/-- serde serialization of an `Option<u32>` field value. -/
def serOptU32 : Option Nat → Json
  | none => Json.null
  | some n => Json.num (n : Int)

/-- serde serialization of an `Option<String>` field value. -/
def serOptStr : Option String → Json
  | none => Json.null
  | some s => Json.str s

/-- serde serialization of an `Option<bool>` field value. -/
def serOptBool : Option Bool → Json
  | none => Json.null
  | some b => Json.bool b

/-- Derived `Serialize` for `User`: all twelve fields, camelCase keys, in
declaration order. -/
def serializeUser (u : User) : Json :=
  Json.obj
    [ ("id", serOptU32 u.id)
    , ("name", serOptStr u.name)
    , ("email", serOptStr u.email)
    , ("alternateEmail", serOptStr u.alternate_email)
    , ("employeeNumber", serOptU32 u.employee_number)
    , ("title", serOptStr u.title)
    , ("phone", serOptStr u.phone)
    , ("location", serOptStr u.location)
    , ("timezone", serOptStr u.timezone)
    , ("locale", serOptStr u.locale)
    , ("role", serOptStr u.role)
    , ("deleted", serOptBool u.deleted) ]

/-! ### Deserialization (serde `Deserialize` derive)

The derive generates a field-identifier enum matched against the camelCase
key strings (unknown keys map to an ignored variant), visits the map
entries left to right rejecting duplicate known keys, and fills unseen
fields from the container default (`#[serde(default)]`, and `Default` for
`User` makes every field `None`). -/

/-- The field-identifier enum generated by the serde derive for `User`. -/
inductive UField where
  | id
  | name
  | email
  | alternateEmail
  | employeeNumber
  | title
  | phone
  | location
  | timezone
  | locale
  | role
  | deleted
deriving Repr, DecidableEq

/-- The camelCase JSON key of each field. -/
def UField.key : UField → String
  | UField.id => "id"
  | UField.name => "name"
  | UField.email => "email"
  | UField.alternateEmail => "alternateEmail"
  | UField.employeeNumber => "employeeNumber"
  | UField.title => "title"
  | UField.phone => "phone"
  | UField.location => "location"
  | UField.timezone => "timezone"
  | UField.locale => "locale"
  | UField.role => "role"
  | UField.deleted => "deleted"

/-- Key recognition of the serde field identifier: camelCase key strings map
to fields, anything else is ignored. -/
def fieldOfKey (k : String) : Option UField :=
  if k = "id" then some UField.id
  else if k = "name" then some UField.name
  else if k = "email" then some UField.email
  else if k = "alternateEmail" then some UField.alternateEmail
  else if k = "employeeNumber" then some UField.employeeNumber
  else if k = "title" then some UField.title
  else if k = "phone" then some UField.phone
  else if k = "location" then some UField.location
  else if k = "timezone" then some UField.timezone
  else if k = "locale" then some UField.locale
  else if k = "role" then some UField.role
  else if k = "deleted" then some UField.deleted
  else none

/-- Raw field slots of the in-progress visitor: the JSON value seen for each
field, if any (used both for the final value and for duplicate detection). -/
def RawUser := UField → Option Json

/-- Visit one map entry: an unknown key is ignored, a known key that was
already seen is a duplicate-field error, otherwise the slot is filled. -/
def collectField (r : RawUser) (kv : String × Json) : Except String RawUser :=
  match fieldOfKey kv.fst with
  | none => Except.ok r
  | some f =>
    match r f with
    | some _ => Except.error ("duplicate field " ++ kv.fst)
    | none => Except.ok (fun g => if g = f then some kv.snd else r g)

/-- Visit all map entries left to right. -/
def collectUserFields (fields : List (String × Json)) (r : RawUser) :
    Except String RawUser :=
  fields.foldlM collectField r

/-- Deserialize an `Option<u32>` slot: a missing slot is the default `None`,
`null` is `None`, an in-range integer is `Some`, anything else errors. -/
def decodeOptU32 : Option Json → Except String (Option Nat)
  | none => Except.ok none
  | some Json.null => Except.ok none
  | some (Json.num n) =>
    if 0 ≤ n ∧ n < 4294967296 then Except.ok (some n.toNat)
    else Except.error "invalid value: out of range for u32"
  | some _ => Except.error "invalid type: expected u32"

/-- Deserialize an `Option<String>` slot. -/
def decodeOptStr : Option Json → Except String (Option String)
  | none => Except.ok none
  | some Json.null => Except.ok none
  | some (Json.str s) => Except.ok (some s)
  | some _ => Except.error "invalid type: expected string"

/-- Deserialize an `Option<bool>` slot. -/
def decodeOptBool : Option Json → Except String (Option Bool)
  | none => Except.ok none
  | some Json.null => Except.ok none
  | some (Json.bool b) => Except.ok (some b)
  | some _ => Except.error "invalid type: expected bool"

/-- Final step of the derived `Deserialize` for `User`: decode every slot
(the container default supplies `None` for unseen slots). -/
def decodeUserFields (r : RawUser) : Except String User := do
  let id ← decodeOptU32 (r UField.id)
    let name ← decodeOptStr (r UField.name)
    let email ← decodeOptStr (r UField.email)
    let alternate_email ← decodeOptStr (r UField.alternateEmail)
    let employee_number ← decodeOptU32 (r UField.employeeNumber)
    let title ← decodeOptStr (r UField.title)
    let phone ← decodeOptStr (r UField.phone)
    let location ← decodeOptStr (r UField.location)
    let timezone ← decodeOptStr (r UField.timezone)
    let locale ← decodeOptStr (r UField.locale)
    let role ← decodeOptStr (r UField.role)
    let deleted ← decodeOptBool (r UField.deleted)
    Except.ok
      { id := id
      , name := name
      , email := email
      , alternate_email := alternate_email
      , employee_number := employee_number
      , title := title
      , phone := phone
      , location := location
      , timezone := timezone
      , locale := locale
      , role := role
      , deleted := deleted }

/-- Derived `Deserialize` for `User`: visit the object's entries, then
decode every slot. -/
def deserializeUser (j : Json) : Except String User :=
  match j with
  | Json.obj fields => collectUserFields fields (fun _ => none) >>= decodeUserFields
  | _ => Except.error "invalid type: expected object for User"

/-- serde `Deserialize` for `Vec<User>`: a JSON array, elements in order. -/
def deserializeUserList (j : Json) : Except String (List User) :=
  match j with
  | Json.arr xs => xs.mapM deserializeUser
  | _ => Except.error "invalid type: expected array of User"

/-! ### Client operations

Each operation of `impl super::Client` is embedded as a function over an
environment supplying the two external collaborators (token acquisition and
HTTP transport).  Alongside its result it returns the trace of observable
events: the token request it makes and the HTTP request it issues. -/

/-- HTTP verbs used by this module. -/
inductive Method where
  | get
  | post
  | put
  | delete
deriving Repr, DecidableEq

/-- An HTTP request as assembled by an operation: verb, URL (host plus
path, built by string concatenation), query pairs, headers, optional JSON
body. -/
structure Request where
  method : Method
  url : String
  query : List (String × String)
  headers : List (String × String)
  body : Option Json

/-- An HTTP response: the status code and the (JSON-parsed) body. -/
structure Response where
  status : Nat
  body : Json

/-- The external collaborators of the shared client: `get_access_token` and
the HTTP transport (which may fail at the network level). -/
structure Env where
  getAccessToken : String → Except String String
  send : Request → Except String Response

/-- Observable events of one operation invocation. -/
inductive Event where
  | token (scope : String)
  | http (req : Request)

/-- The shared client as far as this module reads it: the base host URL. -/
structure Client where
  host : String

/-- Modelled from the spec: the external response-status helper (reqwest's
`error_for_status`, scoped out of the repository), described in the spec as
turning any status outside the 2xx success range into an error and passing
2xx responses through. -/
def error_for_status (r : Response) : Except String Response :=
  if 200 ≤ r.status ∧ r.status < 300 then Except.ok r
  else Except.error ("request failed: status " ++ toString r.status)

/-- `send()?.error_for_status()?`: issue the request, propagate transport
failure, then apply the status check. -/
def run_request (env : Env) (req : Request) : Except String Response :=
  match env.send req with
  | Except.error e => Except.error e
  | Except.ok r => error_for_status r

/-- The request assembled by `get_users`: query pairs pushed only for
supplied parameters, `limit` first. -/
def get_users_req (c : Client) (tok : String) (limit offset : Option Nat) :
    Request :=
  { method := Method.get
  , url := c.host ++ "/v1/users"
  , query :=
      (match limit with
       | some v => [("limit", toString v)]
       | none => []) ++
      (match offset with
       | some v => [("offset", toString v)]
       | none => [])
  , headers := [("Authorization", tok)]
  , body := none }

/-- The request assembled by `post_bulk_user_emails`. -/
def post_bulk_user_emails_req (c : Client) (tok : String)
    (emails : List String) : Request :=
  { method := Method.post
  , url := c.host ++ "/v1/users/bulk/emails"
  , query := []
  , headers := [("Authorization", tok)]
  , body := some (Json.arr (emails.map Json.str)) }

/-- The request assembled by `post_user`. -/
def post_user_req (c : Client) (tok : String) (user : User) : Request :=
  { method := Method.post
  , url := c.host ++ "/v1/users"
  , query := []
  , headers := [("Authorization", tok)]
  , body := some (serializeUser user) }

/-- The request assembled by `get_user`: URL is the literal concatenation
`host ++ "/v1/users/" ++ id`. -/
def get_user_req (c : Client) (tok : String) (id : String) : Request :=
  { method := Method.get
  , url := c.host ++ "/v1/users/" ++ id
  , query := []
  , headers := [("Authorization", tok)]
  , body := none }

/-- The request assembled by `put_user`. -/
def put_user_req (c : Client) (tok : String) (id : String) (user : User) :
    Request :=
  { method := Method.put
  , url := c.host ++ "/v1/users/" ++ id
  , query := []
  , headers := [("Authorization", tok)]
  , body := some (serializeUser user) }

/-- The request assembled by `delete_user`. -/
def delete_user_req (c : Client) (tok : String) (id : String) : Request :=
  { method := Method.delete
  , url := c.host ++ "/v1/users/" ++ id
  , query := []
  , headers := [("Authorization", tok)]
  , body := none }

/-- `get_users(limit, offset)`: token, one GET to `/v1/users` with the
optional query pairs, status check, decode the body as `Vec<User>`. -/
def Client.get_users (c : Client) (env : Env) (limit offset : Option Nat) :
    Except String (List User) × List Event :=
  match env.getAccessToken "user" with
  | Except.error e => (Except.error e, [Event.token "user"])
  | Except.ok tok =>
    let req := get_users_req c tok limit offset
    match run_request env req with
    | Except.error e => (Except.error e, [Event.token "user", Event.http req])
    | Except.ok resp =>
      (deserializeUserList resp.body, [Event.token "user", Event.http req])

/-- `post_bulk_user_emails(emails)`: token, one POST with the email array
as JSON body, status check, decode the body as `Vec<User>`. -/
def Client.post_bulk_user_emails (c : Client) (env : Env)
    (emails : List String) : Except String (List User) × List Event :=
  match env.getAccessToken "user" with
  | Except.error e => (Except.error e, [Event.token "user"])
  | Except.ok tok =>
    let req := post_bulk_user_emails_req c tok emails
    match run_request env req with
    | Except.error e => (Except.error e, [Event.token "user", Event.http req])
    | Except.ok resp =>
      (deserializeUserList resp.body, [Event.token "user", Event.http req])

/-- `post_user(user)`: token, one POST with the serialized user as body,
status check, decode the body as `User`. -/
def Client.post_user (c : Client) (env : Env) (user : User) :
    Except String User × List Event :=
  match env.getAccessToken "user" with
  | Except.error e => (Except.error e, [Event.token "user"])
  | Except.ok tok =>
    let req := post_user_req c tok user
    match run_request env req with
    | Except.error e => (Except.error e, [Event.token "user", Event.http req])
    | Except.ok resp =>
      (deserializeUser resp.body, [Event.token "user", Event.http req])

/-- `get_user(id)`: token, one GET to `/v1/users/{id}`, status check,
decode the body as `User`. -/
def Client.get_user (c : Client) (env : Env) (id : String) :
    Except String User × List Event :=
  match env.getAccessToken "user" with
  | Except.error e => (Except.error e, [Event.token "user"])
  | Except.ok tok =>
    let req := get_user_req c tok id
    match run_request env req with
    | Except.error e => (Except.error e, [Event.token "user", Event.http req])
    | Except.ok resp =>
      (deserializeUser resp.body, [Event.token "user", Event.http req])

/-- `put_user(id, user)`: token, one PUT to `/v1/users/{id}` with the
serialized user as body, status check, decode the body as `User`. -/
def Client.put_user (c : Client) (env : Env) (id : String) (user : User) :
    Except String User × List Event :=
  match env.getAccessToken "user" with
  | Except.error e => (Except.error e, [Event.token "user"])
  | Except.ok tok =>
    let req := put_user_req c tok id user
    match run_request env req with
    | Except.error e => (Except.error e, [Event.token "user", Event.http req])
    | Except.ok resp =>
      (deserializeUser resp.body, [Event.token "user", Event.http req])

/-- `delete_user(id)`: token, one DELETE to `/v1/users/{id}`, status check;
on success the body is never read and `Ok(())` is returned. -/
def Client.delete_user (c : Client) (env : Env) (id : String) :
    Except String Unit × List Event :=
  match env.getAccessToken "user" with
  | Except.error e => (Except.error e, [Event.token "user"])
  | Except.ok tok =>
    let req := delete_user_req c tok id
    match run_request env req with
    | Except.error e => (Except.error e, [Event.token "user", Event.http req])
    | Except.ok _ => (Except.ok (), [Event.token "user", Event.http req])

/-- `true` exactly on the error constructor of `Except`. -/
def isErr {ε α : Type} : Except ε α → Bool
  | Except.error _ => true
  | Except.ok _ => false

/-- The twelve JSON keys of `User`, in declaration order. -/
def userJsonKeys : List String :=
  ["id", "name", "email", "alternateEmail", "employeeNumber", "title",
   "phone", "location", "timezone", "locale", "role", "deleted"]

/-- An environment whose collaborators give constant answers, used to
exercise the operations on concrete scenarios. -/
def constEnv (tokres : Except String String)
    (respres : Except String Response) : Env :=
  { getAccessToken := fun _ => tokres
  , send := fun _ => respres }

end DomoUser

namespace DomoUser

/-! ### Helper lemmas -/

/-- Bind on a success just applies the continuation. -/
theorem ok_bind {ε α β : Type} (a : α) (f : α → Except ε β) :
    ((Except.ok a : Except ε α) >>= f) = f a := rfl

/-- Inversion for `Except` bind. -/
theorem bind_ok {ε α β : Type} {x : Except ε α} {f : α → Except ε β} {b : β}
    (h : (x >>= f) = Except.ok b) : ∃ a, x = Except.ok a ∧ f a = Except.ok b := by
  cases x with
  | error e => simp [Bind.bind, Except.bind] at h
  | ok a => exact ⟨a, rfl, by simpa [Bind.bind, Except.bind] using h⟩

/-- Deserializing an object is the field traversal followed by the slot
decodes. -/
theorem deserializeUser_obj (fs : List (String × Json)) :
    deserializeUser (Json.obj fs) =
      (collectUserFields fs (fun _ => none) >>= decodeUserFields) := rfl

/-- A recognized key is the field's camelCase key. -/
theorem fieldOfKey_eq_key (k : String) (f : UField) (h : fieldOfKey k = some f) :
    k = f.key := by
  unfold fieldOfKey at h
  by_cases h1 : k = "id"
  · rw [if_pos h1] at h; injection h with h0; subst h0; exact h1
  rw [if_neg h1] at h
  by_cases h2 : k = "name"
  · rw [if_pos h2] at h; injection h with h0; subst h0; exact h2
  rw [if_neg h2] at h
  by_cases h3 : k = "email"
  · rw [if_pos h3] at h; injection h with h0; subst h0; exact h3
  rw [if_neg h3] at h
  by_cases h4 : k = "alternateEmail"
  · rw [if_pos h4] at h; injection h with h0; subst h0; exact h4
  rw [if_neg h4] at h
  by_cases h5 : k = "employeeNumber"
  · rw [if_pos h5] at h; injection h with h0; subst h0; exact h5
  rw [if_neg h5] at h
  by_cases h6 : k = "title"
  · rw [if_pos h6] at h; injection h with h0; subst h0; exact h6
  rw [if_neg h6] at h
  by_cases h7 : k = "phone"
  · rw [if_pos h7] at h; injection h with h0; subst h0; exact h7
  rw [if_neg h7] at h
  by_cases h8 : k = "location"
  · rw [if_pos h8] at h; injection h with h0; subst h0; exact h8
  rw [if_neg h8] at h
  by_cases h9 : k = "timezone"
  · rw [if_pos h9] at h; injection h with h0; subst h0; exact h9
  rw [if_neg h9] at h
  by_cases h10 : k = "locale"
  · rw [if_pos h10] at h; injection h with h0; subst h0; exact h10
  rw [if_neg h10] at h
  by_cases h11 : k = "role"
  · rw [if_pos h11] at h; injection h with h0; subst h0; exact h11
  rw [if_neg h11] at h
  by_cases h12 : k = "deleted"
  · rw [if_pos h12] at h; injection h with h0; subst h0; exact h12
  rw [if_neg h12] at h
  exact Option.noConfusion h

/-- A key outside the twelve is not recognized. -/
theorem fieldOfKey_eq_none (k : String) (hk : k ∉ userJsonKeys) :
    fieldOfKey k = none := by
  simp only [userJsonKeys, List.mem_cons, List.not_mem_nil, or_false,
    not_or] at hk
  obtain ⟨n1, n2, n3, n4, n5, n6, n7, n8, n9, n10, n11, n12⟩ := hk
  unfold fieldOfKey
  rw [if_neg n1, if_neg n2, if_neg n3, if_neg n4, if_neg n5, if_neg n6,
    if_neg n7, if_neg n8, if_neg n9, if_neg n10, if_neg n11, if_neg n12]

/-- Visiting an entry with an unrecognized key leaves the traversal unchanged. -/
theorem collect_skip_unknown (k : String) (v : Json) (hk : fieldOfKey k = none)
    (fs : List (String × Json)) (r : RawUser) :
    collectUserFields ((k, v) :: fs) r = collectUserFields fs r := by
  rw [show collectUserFields ((k, v) :: fs) r =
        (collectField r (k, v) >>= fun r2 => collectUserFields fs r2) from rfl]
  simp only [collectField, hk, ok_bind]

/-- A slot whose key never occurs keeps its initial value. -/
theorem collect_missing (f : UField) :
    ∀ (fs : List (String × Json)) (r r' : RawUser),
      collectUserFields fs r = Except.ok r' →
      f.key ∉ fs.map Prod.fst → r' f = r f := by
  intro fs
  induction fs with
  | nil =>
    intro r r' h _
    injection h with h2
    rw [← h2]
  | cons kv rest ih =>
    intro r r' h hmem
    obtain ⟨k, v⟩ := kv
    simp only [List.map_cons, List.mem_cons, not_or] at hmem
    obtain ⟨hk, hrest⟩ := hmem
    rw [show collectUserFields ((k, v) :: rest) r =
          (collectField r (k, v) >>= fun r2 => collectUserFields rest r2) from rfl] at h
    obtain ⟨r2, hstep, hcont⟩ := bind_ok h
    have hr2 : r2 f = r f := by
      cases hf : fieldOfKey k with
      | none =>
        simp only [collectField, hf, Except.ok.injEq] at hstep
        subst hstep
        rfl
      | some g =>
        have hkey : k = g.key := fieldOfKey_eq_key k g hf
        cases hrg : r g with
        | some w =>
          simp [collectField, hf, hrg] at hstep
        | none =>
          simp only [collectField, hf, hrg, Except.ok.injEq] at hstep
          have hfg : f ≠ g := fun he => hk (by rw [he, hkey])
          rw [← hstep]
          simp [hfg]
    rw [ih r2 r' hcont hrest, hr2]

/-- Inversion of a successful `User` deserialization: there is a raw slot
assignment produced by the field traversal whose per-field decodes give
exactly the resulting fields. -/
theorem deserializeUser_ok_inv (fs : List (String × Json)) (u : User)
    (h : deserializeUser (Json.obj fs) = Except.ok u) :
    ∃ r, collectUserFields fs (fun _ => none) = Except.ok r ∧
      decodeOptU32 (r UField.id) = Except.ok u.id ∧
      decodeOptStr (r UField.name) = Except.ok u.name ∧
      decodeOptStr (r UField.email) = Except.ok u.email ∧
      decodeOptStr (r UField.alternateEmail) = Except.ok u.alternate_email ∧
      decodeOptU32 (r UField.employeeNumber) = Except.ok u.employee_number ∧
      decodeOptStr (r UField.title) = Except.ok u.title ∧
      decodeOptStr (r UField.phone) = Except.ok u.phone ∧
      decodeOptStr (r UField.location) = Except.ok u.location ∧
      decodeOptStr (r UField.timezone) = Except.ok u.timezone ∧
      decodeOptStr (r UField.locale) = Except.ok u.locale ∧
      decodeOptStr (r UField.role) = Except.ok u.role ∧
      decodeOptBool (r UField.deleted) = Except.ok u.deleted := by
  rw [deserializeUser_obj] at h
  obtain ⟨r, hr, h⟩ := bind_ok h
  unfold decodeUserFields at h
  obtain ⟨x1, e1, h⟩ := bind_ok h
  obtain ⟨x2, e2, h⟩ := bind_ok h
  obtain ⟨x3, e3, h⟩ := bind_ok h
  obtain ⟨x4, e4, h⟩ := bind_ok h
  obtain ⟨x5, e5, h⟩ := bind_ok h
  obtain ⟨x6, e6, h⟩ := bind_ok h
  obtain ⟨x7, e7, h⟩ := bind_ok h
  obtain ⟨x8, e8, h⟩ := bind_ok h
  obtain ⟨x9, e9, h⟩ := bind_ok h
  obtain ⟨x10, e10, h⟩ := bind_ok h
  obtain ⟨x11, e11, h⟩ := bind_ok h
  obtain ⟨x12, e12, h⟩ := bind_ok h
  injection h with h0
  subst h0
  exact ⟨r, hr, e1, e2, e3, e4, e5, e6, e7, e8, e9, e10, e11, e12⟩

end DomoUser

namespace DomoUser

/-- C2: deserialization ignores unknown keys (dropping an entry with an
unrecognized key never changes the result), maps every missing key to the
absent state of its field, and in particular the deleted tombstone
`{"id": 5, "deleted": true}` deserializes to a `User` with id 5, deleted
true, and all other ten fields absent. -/
theorem C2_missing_absent_unknown_ignored :
    (∀ (k : String) (v : Json) (fs : List (String × Json)),
        k ∉ userJsonKeys →
        deserializeUser (Json.obj ((k, v) :: fs)) = deserializeUser (Json.obj fs)) ∧
    (∀ (fs : List (String × Json)) (u : User),
        deserializeUser (Json.obj fs) = Except.ok u →
        ("id" ∉ fs.map Prod.fst → u.id = none) ∧
        ("name" ∉ fs.map Prod.fst → u.name = none) ∧
        ("email" ∉ fs.map Prod.fst → u.email = none) ∧
        ("alternateEmail" ∉ fs.map Prod.fst → u.alternate_email = none) ∧
        ("employeeNumber" ∉ fs.map Prod.fst → u.employee_number = none) ∧
        ("title" ∉ fs.map Prod.fst → u.title = none) ∧
        ("phone" ∉ fs.map Prod.fst → u.phone = none) ∧
        ("location" ∉ fs.map Prod.fst → u.location = none) ∧
        ("timezone" ∉ fs.map Prod.fst → u.timezone = none) ∧
        ("locale" ∉ fs.map Prod.fst → u.locale = none) ∧
        ("role" ∉ fs.map Prod.fst → u.role = none) ∧
        ("deleted" ∉ fs.map Prod.fst → u.deleted = none)) ∧
    deserializeUser (Json.obj [("id", Json.num 5), ("deleted", Json.bool true)]) =
      Except.ok { User.new with id := some 5, deleted := some true } := by
  refine ⟨?_, ?_, by rfl⟩
  · intro k v fs hk
    rw [deserializeUser_obj, deserializeUser_obj,
      collect_skip_unknown k v (fieldOfKey_eq_none k hk) fs]
  · intro fs u h
    obtain ⟨r, hr, e1, e2, e3, e4, e5, e6, e7, e8, e9, e10, e11, e12⟩ :=
      deserializeUser_ok_inv fs u h
    refine ⟨fun hm => ?_, fun hm => ?_, fun hm => ?_, fun hm => ?_,
      fun hm => ?_, fun hm => ?_, fun hm => ?_, fun hm => ?_,
      fun hm => ?_, fun hm => ?_, fun hm => ?_, fun hm => ?_⟩
    · rw [collect_missing UField.id fs _ r hr hm] at e1
      injection e1 with e0
      rw [← e0]
    · rw [collect_missing UField.name fs _ r hr hm] at e2
      injection e2 with e0
      rw [← e0]
    · rw [collect_missing UField.email fs _ r hr hm] at e3
      injection e3 with e0
      rw [← e0]
    · rw [collect_missing UField.alternateEmail fs _ r hr hm] at e4
      injection e4 with e0
      rw [← e0]
    · rw [collect_missing UField.employeeNumber fs _ r hr hm] at e5
      injection e5 with e0
      rw [← e0]
    · rw [collect_missing UField.title fs _ r hr hm] at e6
      injection e6 with e0
      rw [← e0]
    · rw [collect_missing UField.phone fs _ r hr hm] at e7
      injection e7 with e0
      rw [← e0]
    · rw [collect_missing UField.location fs _ r hr hm] at e8
      injection e8 with e0
      rw [← e0]
    · rw [collect_missing UField.timezone fs _ r hr hm] at e9
      injection e9 with e0
      rw [← e0]
    · rw [collect_missing UField.locale fs _ r hr hm] at e10
      injection e10 with e0
      rw [← e0]
    · rw [collect_missing UField.role fs _ r hr hm] at e11
      injection e11 with e0
      rw [← e0]
    · rw [collect_missing UField.deleted fs _ r hr hm] at e12
      injection e12 with e0
      rw [← e0]

/-- C2 witness: unknown-key hypothesis discharged on the key `"zzz"`. -/
theorem C2_missing_absent_unknown_ignored_witness :
    deserializeUser (Json.obj [("zzz", Json.null)]) =
      deserializeUser (Json.obj []) :=
  C2_missing_absent_unknown_ignored.1 "zzz" Json.null [] (by decide)

end DomoUser

namespace DomoUser

/-- C1 counterexample: `User::new()` has every field absent, yet its
serialized JSON still contains the key `"id"` (bound to `null`) — the
absent field is not omitted from the JSON. -/
theorem C1_serialization_counterexample :
    User.new.id = none ∧
    Json.lookupKey (serializeUser User.new) "id" = some Json.null := by
  exact ⟨rfl, rfl⟩

/-- C1 amended: serializing a `User` always emits all twelve camelCase
keys; an absent field's key is present and bound to JSON `null` rather than
omitted. -/
theorem C1_absent_fields_serialized_as_null (u : User) :
    Json.keys (serializeUser u) = userJsonKeys ∧
    (u.id = none → Json.lookupKey (serializeUser u) "id" = some Json.null) ∧
    (u.name = none → Json.lookupKey (serializeUser u) "name" = some Json.null) ∧
    (u.email = none → Json.lookupKey (serializeUser u) "email" = some Json.null) ∧
    (u.alternate_email = none →
      Json.lookupKey (serializeUser u) "alternateEmail" = some Json.null) ∧
    (u.employee_number = none →
      Json.lookupKey (serializeUser u) "employeeNumber" = some Json.null) ∧
    (u.title = none → Json.lookupKey (serializeUser u) "title" = some Json.null) ∧
    (u.phone = none → Json.lookupKey (serializeUser u) "phone" = some Json.null) ∧
    (u.location = none → Json.lookupKey (serializeUser u) "location" = some Json.null) ∧
    (u.timezone = none → Json.lookupKey (serializeUser u) "timezone" = some Json.null) ∧
    (u.locale = none → Json.lookupKey (serializeUser u) "locale" = some Json.null) ∧
    (u.role = none → Json.lookupKey (serializeUser u) "role" = some Json.null) ∧
    (u.deleted = none → Json.lookupKey (serializeUser u) "deleted" = some Json.null) := by
  refine ⟨by simp [serializeUser, Json.keys, userJsonKeys], ?_, ?_, ?_, ?_, ?_,
    ?_, ?_, ?_, ?_, ?_, ?_, ?_⟩ <;>
    intro hm <;>
    simp [serializeUser, Json.lookupKey, List.find?, hm, serOptU32, serOptStr,
      serOptBool]

/-- C1 witness for the amended theorem, at `User::new()`. -/
theorem C1_absent_fields_serialized_as_null_witness :
    Json.keys (serializeUser User.new) = userJsonKeys ∧
    Json.lookupKey (serializeUser User.new) "name" = some Json.null :=
  ⟨(C1_absent_fields_serialized_as_null User.new).1,
   (C1_absent_fields_serialized_as_null User.new).2.2.1 rfl⟩

/-- C8: `User::template()` has every one of the twelve fields present, its
nine string fields all non-empty; `User::new()` has every field absent. -/
theorem C8_template_full_new_empty :
    User.template.id.isSome = true ∧
    User.template.name.isSome = true ∧
    User.template.email.isSome = true ∧
    User.template.alternate_email.isSome = true ∧
    User.template.employee_number.isSome = true ∧
    User.template.title.isSome = true ∧
    User.template.phone.isSome = true ∧
    User.template.location.isSome = true ∧
    User.template.timezone.isSome = true ∧
    User.template.locale.isSome = true ∧
    User.template.role.isSome = true ∧
    User.template.deleted.isSome = true ∧
    (User.template.name.getD "").length ≠ 0 ∧
    (User.template.email.getD "").length ≠ 0 ∧
    (User.template.alternate_email.getD "").length ≠ 0 ∧
    (User.template.title.getD "").length ≠ 0 ∧
    (User.template.phone.getD "").length ≠ 0 ∧
    (User.template.location.getD "").length ≠ 0 ∧
    (User.template.timezone.getD "").length ≠ 0 ∧
    (User.template.locale.getD "").length ≠ 0 ∧
    (User.template.role.getD "").length ≠ 0 ∧
    User.new.id = none ∧
    User.new.name = none ∧
    User.new.email = none ∧
    User.new.alternate_email = none ∧
    User.new.employee_number = none ∧
    User.new.title = none ∧
    User.new.phone = none ∧
    User.new.location = none ∧
    User.new.timezone = none ∧
    User.new.locale = none ∧
    User.new.role = none ∧
    User.new.deleted = none := by
  decide

end DomoUser

namespace DomoUser

/-- C6: the JSON key of every field, on serialization and deserialization,
is the camelCase form of the field name; in particular `alternate_email`
maps to `"alternateEmail"` and `employee_number` to `"employeeNumber"`,
while the snake_case spellings are unrecognized (ignored) keys. -/
theorem C6_camel_case_keys (u : User) (s : String) (n : Nat)
    (hn : n < 4294967296) :
    Json.keys (serializeUser u) = userJsonKeys ∧
    deserializeUser (Json.obj [("alternateEmail", Json.str s)]) =
      Except.ok { User.new with alternate_email := some s } ∧
    deserializeUser (Json.obj [("employeeNumber", Json.num (n : Int))]) =
      Except.ok { User.new with employee_number := some n } ∧
    deserializeUser (Json.obj [("alternate_email", Json.str s)]) =
      Except.ok User.new ∧
    deserializeUser (Json.obj [("employee_number", Json.num (n : Int))]) =
      Except.ok User.new := by
  have ha : (0 : Int) ≤ (n : Int) := by positivity
  have hb : ((n : Int)) < 4294967296 := by omega
  refine ⟨by simp [serializeUser, Json.keys, userJsonKeys], ?_, ?_, ?_, ?_⟩
  · simp [deserializeUser_obj, collectUserFields, List.foldlM,
      collectField, fieldOfKey, ok_bind, decodeUserFields, decodeOptU32,
      decodeOptStr, decodeOptBool, User.new]
  · rw [deserializeUser_obj]
    rw [show collectUserFields [("employeeNumber", Json.num (n : Int))]
          (fun _ => none) =
        Except.ok (fun g => if g = UField.employeeNumber
          then some (Json.num (n : Int)) else none) from by
      simp [collectUserFields, List.foldlM, collectField, fieldOfKey, ok_bind]]
    rw [ok_bind]
    simp [decodeUserFields, ok_bind, decodeOptU32, decodeOptStr,
      decodeOptBool, User.new, ha, hb]
  · simp [deserializeUser_obj, collectUserFields, List.foldlM,
      collectField, fieldOfKey, ok_bind, decodeUserFields, decodeOptU32,
      decodeOptStr, decodeOptBool, User.new]
  · simp [deserializeUser_obj, collectUserFields, List.foldlM,
      collectField, fieldOfKey, ok_bind, decodeUserFields, decodeOptU32,
      decodeOptStr, decodeOptBool, User.new]

/-- C6 witness at concrete inputs. -/
theorem C6_camel_case_keys_witness :
    deserializeUser (Json.obj [("alternateEmail", Json.str "x@y.z")]) =
      Except.ok { User.new with alternate_email := some "x@y.z" } :=
  (C6_camel_case_keys User.new "x@y.z" 7 (by decide)).2.1

/-- C7: serializing a `User` with all twelve fields present and
deserializing the result yields the original value (the `u32` fields range
over the `u32` domain). -/
theorem C7_roundtrip_full (i en : Nat) (hi : i < 4294967296)
    (hen : en < 4294967296) (nm em ae ti ph lo tz lc ro : String) (b : Bool) :
    deserializeUser (serializeUser
      { id := some i, name := some nm, email := some em
      , alternate_email := some ae, employee_number := some en
      , title := some ti, phone := some ph, location := some lo
      , timezone := some tz, locale := some lc, role := some ro
      , deleted := some b }) =
    Except.ok
      { id := some i, name := some nm, email := some em
      , alternate_email := some ae, employee_number := some en
      , title := some ti, phone := some ph, location := some lo
      , timezone := some tz, locale := some lc, role := some ro
      , deleted := some b } := by
  have hai : (0 : Int) ≤ (i : Int) := by positivity
  have hbi : ((i : Int)) < 4294967296 := by omega
  have hae : (0 : Int) ≤ (en : Int) := by positivity
  have hbe : ((en : Int)) < 4294967296 := by omega
  rw [show serializeUser
      { id := some i, name := some nm, email := some em
      , alternate_email := some ae, employee_number := some en
      , title := some ti, phone := some ph, location := some lo
      , timezone := some tz, locale := some lc, role := some ro
      , deleted := some b } =
    Json.obj
      [ ("id", Json.num (i : Int)), ("name", Json.str nm)
      , ("email", Json.str em), ("alternateEmail", Json.str ae)
      , ("employeeNumber", Json.num (en : Int)), ("title", Json.str ti)
      , ("phone", Json.str ph), ("location", Json.str lo)
      , ("timezone", Json.str tz), ("locale", Json.str lc)
      , ("role", Json.str ro), ("deleted", Json.bool b) ] from rfl]
  rw [deserializeUser_obj]
  rw [show collectUserFields
      [ ("id", Json.num (i : Int)), ("name", Json.str nm)
      , ("email", Json.str em), ("alternateEmail", Json.str ae)
      , ("employeeNumber", Json.num (en : Int)), ("title", Json.str ti)
      , ("phone", Json.str ph), ("location", Json.str lo)
      , ("timezone", Json.str tz), ("locale", Json.str lc)
      , ("role", Json.str ro), ("deleted", Json.bool b) ] (fun _ => none) =
    Except.ok (fun g => some (match g with
      | UField.id => Json.num (i : Int)
      | UField.name => Json.str nm
      | UField.email => Json.str em
      | UField.alternateEmail => Json.str ae
      | UField.employeeNumber => Json.num (en : Int)
      | UField.title => Json.str ti
      | UField.phone => Json.str ph
      | UField.location => Json.str lo
      | UField.timezone => Json.str tz
      | UField.locale => Json.str lc
      | UField.role => Json.str ro
      | UField.deleted => Json.bool b)) from by
    simp [collectUserFields, List.foldlM, collectField, fieldOfKey, ok_bind]
    funext g
    cases g <;> rfl]
  rw [ok_bind]
  simp [decodeUserFields, ok_bind, decodeOptU32, decodeOptStr, decodeOptBool,
    hai, hbi, hae, hbe]

/-- C7 witness at concrete values. -/
theorem C7_roundtrip_full_witness :
    deserializeUser (serializeUser
      { id := some 3, name := some "n", email := some "e"
      , alternate_email := some "a", employee_number := some 9
      , title := some "t", phone := some "p", location := some "l"
      , timezone := some "z", locale := some "c", role := some "r"
      , deleted := some false }) =
    Except.ok
      { id := some 3, name := some "n", email := some "e"
      , alternate_email := some "a", employee_number := some 9
      , title := some "t", phone := some "p", location := some "l"
      , timezone := some "z", locale := some "c", role := some "r"
      , deleted := some false } :=
  C7_roundtrip_full 3 9 (by decide) (by decide) "n" "e" "a" "t" "p" "l" "z" "c" "r" false

end DomoUser

namespace DomoUser

/-- C5: every one of the six operations asks the shared client for a token
with scope `"user"` before anything else, and when token acquisition fails
the operation returns exactly that error having issued no HTTP request. -/
theorem C5_token_scope_user_first (c : Client) (env : Env)
    (limit offset : Option Nat) (emails : List String) (u : User)
    (id : String) :
    ((c.get_users env limit offset).2.head? = some (Event.token "user") ∧
     (c.post_bulk_user_emails env emails).2.head? = some (Event.token "user") ∧
     (c.post_user env u).2.head? = some (Event.token "user") ∧
     (c.get_user env id).2.head? = some (Event.token "user") ∧
     (c.put_user env id u).2.head? = some (Event.token "user") ∧
     (c.delete_user env id).2.head? = some (Event.token "user")) ∧
    (∀ e : String, env.getAccessToken "user" = Except.error e →
      c.get_users env limit offset = (Except.error e, [Event.token "user"]) ∧
      c.post_bulk_user_emails env emails = (Except.error e, [Event.token "user"]) ∧
      c.post_user env u = (Except.error e, [Event.token "user"]) ∧
      c.get_user env id = (Except.error e, [Event.token "user"]) ∧
      c.put_user env id u = (Except.error e, [Event.token "user"]) ∧
      c.delete_user env id = (Except.error e, [Event.token "user"])) := by
  constructor
  · refine ⟨?_, ?_, ?_, ?_, ?_, ?_⟩ <;>
      (cases htok : env.getAccessToken "user" with
       | error e =>
         simp [Client.get_users, Client.post_bulk_user_emails,
           Client.post_user, Client.get_user, Client.put_user,
           Client.delete_user, htok]
       | ok tok =>
         simp only [Client.get_users, Client.post_bulk_user_emails,
           Client.post_user, Client.get_user, Client.put_user,
           Client.delete_user, htok]
         split <;> rfl)
  · intro e he
    refine ⟨?_, ?_, ?_, ?_, ?_, ?_⟩ <;>
      simp [Client.get_users, Client.post_bulk_user_emails, Client.post_user,
        Client.get_user, Client.put_user, Client.delete_user, he]

/-- C5 witness: a failing token collaborator aborts `get_user` with no HTTP
request. -/
theorem C5_token_scope_user_first_witness :
    (Client.mk "h").get_user
        (constEnv (Except.error "no token") (Except.error "net")) "42" =
      (Except.error "no token", [Event.token "user"]) :=
  ((C5_token_scope_user_first (Client.mk "h")
      (constEnv (Except.error "no token") (Except.error "net"))
      none none [] User.new "42").2 "no token" rfl).2.2.2.1

/-- C9: `get_user`, `put_user` and `delete_user` build the URL by literal
concatenation `host ++ "/v1/users/" ++ id` and issue the request for every
caller-supplied `id`, with no validation or escaping; an `id` containing
`/` or `?` lands verbatim in the URL. -/
theorem C9_id_concatenated_unescaped (c : Client) (env : Env)
    (id tok : String) (u : User)
    (htok : env.getAccessToken "user" = Except.ok tok) :
    (c.get_user env id).2 =
      [Event.token "user", Event.http (get_user_req c tok id)] ∧
    (get_user_req c tok id).url = c.host ++ "/v1/users/" ++ id ∧
    (c.put_user env id u).2 =
      [Event.token "user", Event.http (put_user_req c tok id u)] ∧
    (put_user_req c tok id u).url = c.host ++ "/v1/users/" ++ id ∧
    (c.delete_user env id).2 =
      [Event.token "user", Event.http (delete_user_req c tok id)] ∧
    (delete_user_req c tok id).url = c.host ++ "/v1/users/" ++ id ∧
    (get_user_req (Client.mk "H") "t" "42/../0?x=1").url =
      "H/v1/users/42/../0?x=1" := by
  refine ⟨?_, rfl, ?_, rfl, ?_, rfl, rfl⟩ <;>
    (simp only [Client.get_user, Client.put_user, Client.delete_user, htok]
     split <;> rfl)

/-- C9 witness at a concrete id containing `/` and `?`. -/
theorem C9_id_concatenated_unescaped_witness :
    ((Client.mk "H").get_user (constEnv (Except.ok "t") (Except.error "net"))
        "42/../0?x=1").2 =
      [Event.token "user",
       Event.http (get_user_req (Client.mk "H") "t" "42/../0?x=1")] :=
  (C9_id_concatenated_unescaped (Client.mk "H")
      (constEnv (Except.ok "t") (Except.error "net"))
      "42/../0?x=1" "t" User.new rfl).1

end DomoUser

namespace DomoUser

/-- C10: `delete_user` never reads the response body — any 2xx response
yields `Ok(())` whatever the body holds, and for a fixed status the result
is independent of the body, so no decode error can arise. -/
theorem C10_delete_never_decodes (c : Client) (env : Env) (id tok : String)
    (resp : Response)
    (htok : env.getAccessToken "user" = Except.ok tok)
    (hsend : env.send (delete_user_req c tok id) = Except.ok resp)
    (hs : 200 ≤ resp.status ∧ resp.status < 300) :
    (c.delete_user env id).1 = Except.ok () ∧
    (∀ (s2 : Nat) (b1 b2 : Json),
      (c.delete_user (constEnv (Except.ok tok) (Except.ok ⟨s2, b1⟩)) id).1 =
      (c.delete_user (constEnv (Except.ok tok) (Except.ok ⟨s2, b2⟩)) id).1) := by
  constructor
  · simp [Client.delete_user, htok, run_request, hsend, error_for_status,
      hs.1, hs.2]
  · intro s2 b1 b2
    by_cases h2 : 200 ≤ s2 ∧ s2 < 300 <;>
      simp [Client.delete_user, constEnv, run_request, error_for_status, h2]

/-- C10 witness: a 2xx delete response with a non-JSON-shaped body still
returns unit success. -/
theorem C10_delete_never_decodes_witness :
    ((Client.mk "h").delete_user
        (constEnv (Except.ok "t") (Except.ok ⟨204, Json.str "junk"⟩))
        "42").1 = Except.ok () :=
  (C10_delete_never_decodes (Client.mk "h")
      (constEnv (Except.ok "t") (Except.ok ⟨204, Json.str "junk"⟩))
      "42" "t" ⟨204, Json.str "junk"⟩ rfl rfl (by decide)).1

/-- C4: with the status helper modelled from the spec (non-2xx is an
error), every operation fails on a non-2xx response without consulting the
body; on a 2xx response the result is exactly the body decode (so a decode
failure is an error); `delete_user` errors on 404 and returns unit success
on 204. -/
theorem C4_status_and_decode_errors (c : Client) (env : Env)
    (resp : Response) (tok : String) (limit offset : Option Nat)
    (emails : List String) (u : User) (id : String)
    (htok : env.getAccessToken "user" = Except.ok tok)
    (hsend : ∀ q : Request, env.send q = Except.ok resp) :
    (¬(200 ≤ resp.status ∧ resp.status < 300) →
      isErr (c.get_users env limit offset).1 = true ∧
      isErr (c.post_bulk_user_emails env emails).1 = true ∧
      isErr (c.post_user env u).1 = true ∧
      isErr (c.get_user env id).1 = true ∧
      isErr (c.put_user env id u).1 = true ∧
      isErr (c.delete_user env id).1 = true) ∧
    (200 ≤ resp.status ∧ resp.status < 300 →
      (c.get_users env limit offset).1 = deserializeUserList resp.body ∧
      (c.post_bulk_user_emails env emails).1 = deserializeUserList resp.body ∧
      (c.post_user env u).1 = deserializeUser resp.body ∧
      (c.get_user env id).1 = deserializeUser resp.body ∧
      (c.put_user env id u).1 = deserializeUser resp.body) ∧
    (resp.status = 404 → isErr (c.delete_user env id).1 = true) ∧
    (resp.status = 204 → (c.delete_user env id).1 = Except.ok ()) := by
  refine ⟨fun hns => ?_, fun hs => ?_, fun h4 => ?_, fun h2 => ?_⟩
  · refine ⟨?_, ?_, ?_, ?_, ?_, ?_⟩ <;>
      simp [Client.get_users, Client.post_bulk_user_emails, Client.post_user,
        Client.get_user, Client.put_user, Client.delete_user, htok,
        run_request, hsend, error_for_status, hns, isErr]
  · refine ⟨?_, ?_, ?_, ?_, ?_⟩ <;>
      simp [Client.get_users, Client.post_bulk_user_emails, Client.post_user,
        Client.get_user, Client.put_user, htok, run_request, hsend,
        error_for_status, hs.1, hs.2]
  · simp [Client.delete_user, htok, run_request, hsend, error_for_status,
      h4, isErr]
  · simp [Client.delete_user, htok, run_request, hsend, error_for_status, h2]

/-- C4 witness: 404 makes `delete_user` fail. -/
theorem C4_status_and_decode_errors_witness :
    isErr ((Client.mk "h").delete_user
        (constEnv (Except.ok "t") (Except.ok ⟨404, Json.null⟩)) "42").1 =
      true :=
  (C4_status_and_decode_errors (Client.mk "h")
      (constEnv (Except.ok "t") (Except.ok ⟨404, Json.null⟩))
      ⟨404, Json.null⟩ "t" none none [] User.new "42" rfl
      (fun _ => rfl)).2.2.1 rfl

end DomoUser

namespace DomoUser

/-- C3: `get_users` issues exactly one GET to `{host}/v1/users` whose query
contains `limit` iff it was supplied and `offset` iff it was supplied (with
decimal values, `limit` first), with the Authorization header; with
`limit = 10, offset = 0` the query is `limit=10&offset=0`, and a 200
response whose body is a JSON array of three user objects yields those
three users in order. -/
theorem C3_get_users_request_and_decode (c : Client) (env : Env)
    (limit offset : Option Nat) (tok : String)
    (htok : env.getAccessToken "user" = Except.ok tok) :
    ((c.get_users env limit offset).2 =
      [Event.token "user", Event.http (get_users_req c tok limit offset)]) ∧
    (get_users_req c tok limit offset).method = Method.get ∧
    (get_users_req c tok limit offset).url = c.host ++ "/v1/users" ∧
    (get_users_req c tok limit offset).headers = [("Authorization", tok)] ∧
    ((∃ s, ("limit", s) ∈ (get_users_req c tok limit offset).query) ↔
      limit.isSome = true) ∧
    ((∃ s, ("offset", s) ∈ (get_users_req c tok limit offset).query) ↔
      offset.isSome = true) ∧
    (∀ v : Nat, limit = some v →
      ("limit", toString v) ∈ (get_users_req c tok limit offset).query) ∧
    (∀ v : Nat, offset = some v →
      ("offset", toString v) ∈ (get_users_req c tok limit offset).query) ∧
    (get_users_req c tok (some 10) (some 0)).query =
      [("limit", "10"), ("offset", "0")] ∧
    (∀ (b1 b2 b3 : Json) (u1 u2 u3 : User),
      env.send (get_users_req c tok (some 10) (some 0)) =
        Except.ok ⟨200, Json.arr [b1, b2, b3]⟩ →
      deserializeUser b1 = Except.ok u1 →
      deserializeUser b2 = Except.ok u2 →
      deserializeUser b3 = Except.ok u3 →
      (c.get_users env (some 10) (some 0)).1 = Except.ok [u1, u2, u3]) := by
  refine ⟨?_, rfl, rfl, rfl, ?_, ?_, ?_, ?_, rfl, ?_⟩
  · simp only [Client.get_users, htok]
    split <;> rfl
  · cases limit <;> cases offset <;> simp [get_users_req]
  · cases limit <;> cases offset <;> simp [get_users_req]
  · intro v hv
    subst hv
    cases offset <;> simp [get_users_req]
  · intro v hv
    subst hv
    cases limit <;> simp [get_users_req]
  · intro b1 b2 b3 u1 u2 u3 hsend h1 h2 h3
    simp [Client.get_users, htok, run_request, hsend, error_for_status,
      deserializeUserList, List.mapM, List.mapM.loop, ok_bind, h1, h2, h3]

/-- C3 witness: the end-to-end 200 scenario with three empty user objects. -/
theorem C3_get_users_request_and_decode_witness :
    ((Client.mk "h").get_users
        (constEnv (Except.ok "t")
          (Except.ok ⟨200, Json.arr [Json.obj [], Json.obj [], Json.obj []]⟩))
        (some 10) (some 0)).1 =
      Except.ok [User.new, User.new, User.new] :=
  (C3_get_users_request_and_decode (Client.mk "h")
      (constEnv (Except.ok "t")
        (Except.ok ⟨200, Json.arr [Json.obj [], Json.obj [], Json.obj []]⟩))
      (some 10) (some 0) "t" rfl).2.2.2.2.2.2.2.2.2
      (Json.obj []) (Json.obj []) (Json.obj []) User.new User.new User.new
      rfl rfl rfl rfl

end DomoUser
